import Mathlib

/-!
A verification development for MINIXCompat, a compatibility layer that runs
M68000 MINIX 1.5 binaries on a modern POSIX host. The C sources are embedded
shallowly: pure translation functions become Lean functions on `Nat`/`Int`,
fixed-size tables become lists, host side effects (open, fork, fread) become
explicit parameters, and a C `assert` becomes an `Option` result whose `none`
models the assertion firing. Machine integers are `Nat`/`Int` with explicit
`% 2^32` where the C code relies on wraparound.
-/

namespace MINIXCompat

/-! ## Errno translation (MINIXCompat_Errors.c)

Host errno constants are modelled with their Linux numeric values; the C
source spells them with the symbolic POSIX names from `errno.h`. -/

def EPERM : Int := 1
def ENOENT : Int := 2
def ESRCH : Int := 3
def EINTR : Int := 4
def EIO : Int := 5
def ENXIO : Int := 6
def E2BIG : Int := 7
def ENOEXEC : Int := 8
def EBADF : Int := 9
def ECHILD : Int := 10
def EAGAIN : Int := 11
def ENOMEM : Int := 12
def EACCES : Int := 13
def EFAULT : Int := 14
def ENOTBLK : Int := 15
def EBUSY : Int := 16
def EEXIST : Int := 17
def EXDEV : Int := 18
def ENODEV : Int := 19
def ENOTDIR : Int := 20
def EISDIR : Int := 21
def EINVAL : Int := 22
def ENFILE : Int := 23
def EMFILE : Int := 24
def ENOTTY : Int := 25
def ETXTBSY : Int := 26
def EFBIG : Int := 27
def ENOSPC : Int := 28
def ESPIPE : Int := 29
def EROFS : Int := 30
def EMLINK : Int := 31
def EPIPE : Int := 32
def EDOM : Int := 33
def ERANGE : Int := 34
def EDEADLK : Int := 35
def ENAMETOOLONG : Int := 36
def ENOLCK : Int := 37
def ENOSYS : Int := 38
def ENOTEMPTY : Int := 39
def ENOTRECOVERABLE : Int := 131

/-! MINIX errno constants, from the `minix_error` enum in
`MINIXCompat_Errors.h`. -/

def minix_EPERM : Int := 1
def minix_ENOENT : Int := 2
def minix_ESRCH : Int := 3
def minix_EINTR : Int := 4
def minix_EIO : Int := 5
def minix_ENXIO : Int := 6
def minix_E2BIG : Int := 7
def minix_ENOEXEC : Int := 8
def minix_EBADF : Int := 9
def minix_ECHILD : Int := 10
def minix_EAGAIN : Int := 11
def minix_ENOMEM : Int := 12
def minix_EACCES : Int := 13
def minix_EFAULT : Int := 14
def minix_ENOTBLK : Int := 15
def minix_EBUSY : Int := 16
def minix_EEXIST : Int := 17
def minix_EXDEV : Int := 18
def minix_ENODEV : Int := 19
def minix_ENOTDIR : Int := 20
def minix_EISDIR : Int := 21
def minix_EINVAL : Int := 22
def minix_ENFILE : Int := 23
def minix_EMFILE : Int := 24
def minix_ENOTTY : Int := 25
def minix_ETXTBSY : Int := 26
def minix_EFBIG : Int := 27
def minix_ENOSPC : Int := 28
def minix_ESPIPE : Int := 29
def minix_EROFS : Int := 30
def minix_EMLINK : Int := 31
def minix_EPIPE : Int := 32
def minix_EDOM : Int := 33
def minix_ERANGE : Int := 34
def minix_EDEADLK : Int := 35
def minix_ENAMETOOLONG : Int := 36
def minix_ENOLCK : Int := 37
def minix_ENOSYS : Int := 38
def minix_ENOTEMPTY : Int := 39
def minix_ERROR : Int := 99

/-- `MINIXCompat_Errors_MINIXErrorForHostError`: the `switch` over host errno
values; every unlisted host errno falls to the `default` case `minix_ERROR`. -/
def MINIXCompat_Errors_MINIXErrorForHostError (host_error : Int) : Int :=
  if host_error = EPERM then minix_EPERM
  else if host_error = ENOENT then minix_ENOENT
  else if host_error = ESRCH then minix_ESRCH
  else if host_error = EINTR then minix_EINTR
  else if host_error = EIO then minix_EIO
  else if host_error = ENXIO then minix_ENXIO
  else if host_error = E2BIG then minix_E2BIG
  else if host_error = ENOEXEC then minix_ENOEXEC
  else if host_error = EBADF then minix_EBADF
  else if host_error = ECHILD then minix_ECHILD
  else if host_error = EAGAIN then minix_EAGAIN
  else if host_error = ENOMEM then minix_ENOMEM
  else if host_error = EACCES then minix_EACCES
  else if host_error = EFAULT then minix_EFAULT
  else if host_error = ENOTBLK then minix_ENOTBLK
  else if host_error = EBUSY then minix_EBUSY
  else if host_error = EEXIST then minix_EEXIST
  else if host_error = EXDEV then minix_EXDEV
  else if host_error = ENODEV then minix_ENODEV
  else if host_error = ENOTDIR then minix_ENOTDIR
  else if host_error = EISDIR then minix_EISDIR
  else if host_error = EINVAL then minix_EINVAL
  else if host_error = ENFILE then minix_ENFILE
  else if host_error = EMFILE then minix_EMFILE
  else if host_error = ENOTTY then minix_ENOTTY
  else if host_error = ETXTBSY then minix_ETXTBSY
  else if host_error = EFBIG then minix_EFBIG
  else if host_error = ENOSPC then minix_ENOSPC
  else if host_error = ESPIPE then minix_ESPIPE
  else if host_error = EROFS then minix_EROFS
  else if host_error = EMLINK then minix_EMLINK
  else if host_error = EPIPE then minix_EPIPE
  else if host_error = EDOM then minix_EDOM
  else if host_error = ERANGE then minix_ERANGE
  else if host_error = EDEADLK then minix_EDEADLK
  else if host_error = ENAMETOOLONG then minix_ENAMETOOLONG
  else if host_error = ENOLCK then minix_ENOLCK
  else if host_error = ENOSYS then minix_ENOSYS
  else if host_error = ENOTEMPTY then minix_ENOTEMPTY
  else minix_ERROR

/-- `MINIXCompat_Errors_HostErrorForMINIXError`: the reverse `switch`. The C
switch covers every `minix_error` enum value and has no `default`; an argument
outside the enum falls off the end of the C function, modelled here as `0`. -/
def MINIXCompat_Errors_HostErrorForMINIXError (minix_error : Int) : Int :=
  if minix_error = minix_EPERM then EPERM
  else if minix_error = minix_ENOENT then ENOENT
  else if minix_error = minix_ESRCH then ESRCH
  else if minix_error = minix_EINTR then EINTR
  else if minix_error = minix_EIO then EIO
  else if minix_error = minix_ENXIO then ENXIO
  else if minix_error = minix_E2BIG then E2BIG
  else if minix_error = minix_ENOEXEC then ENOEXEC
  else if minix_error = minix_EBADF then EBADF
  else if minix_error = minix_ECHILD then ECHILD
  else if minix_error = minix_EAGAIN then EAGAIN
  else if minix_error = minix_ENOMEM then ENOMEM
  else if minix_error = minix_EACCES then EACCES
  else if minix_error = minix_EFAULT then EFAULT
  else if minix_error = minix_ENOTBLK then ENOTBLK
  else if minix_error = minix_EBUSY then EBUSY
  else if minix_error = minix_EEXIST then EEXIST
  else if minix_error = minix_EXDEV then EXDEV
  else if minix_error = minix_ENODEV then ENODEV
  else if minix_error = minix_ENOTDIR then ENOTDIR
  else if minix_error = minix_EISDIR then EISDIR
  else if minix_error = minix_EINVAL then EINVAL
  else if minix_error = minix_ENFILE then ENFILE
  else if minix_error = minix_EMFILE then EMFILE
  else if minix_error = minix_ENOTTY then ENOTTY
  else if minix_error = minix_ETXTBSY then ETXTBSY
  else if minix_error = minix_EFBIG then EFBIG
  else if minix_error = minix_ENOSPC then ENOSPC
  else if minix_error = minix_ESPIPE then ESPIPE
  else if minix_error = minix_EROFS then EROFS
  else if minix_error = minix_EMLINK then EMLINK
  else if minix_error = minix_EPIPE then EPIPE
  else if minix_error = minix_EDOM then EDOM
  else if minix_error = minix_ERANGE then ERANGE
  else if minix_error = minix_EDEADLK then EDEADLK
  else if minix_error = minix_ENAMETOOLONG then ENAMETOOLONG
  else if minix_error = minix_ENOLCK then ENOLCK
  else if minix_error = minix_ENOSYS then ENOSYS
  else if minix_error = minix_ENOTEMPTY then ENOTEMPTY
  else if minix_error = minix_ERROR then ENOTRECOVERABLE
  else 0

/-- The host errno constants that appear as `case` labels of
`MINIXCompat_Errors_MINIXErrorForHostError`, i.e. the host errors with a MINIX
counterpart. -/
def mappedHostErrors : List Int :=
  [EPERM, ENOENT, ESRCH, EINTR, EIO, ENXIO, E2BIG, ENOEXEC, EBADF, ECHILD,
   EAGAIN, ENOMEM, EACCES, EFAULT, ENOTBLK, EBUSY, EEXIST, EXDEV, ENODEV,
   ENOTDIR, EISDIR, EINVAL, ENFILE, EMFILE, ENOTTY, ETXTBSY, EFBIG, ENOSPC,
   ESPIPE, EROFS, EMLINK, EPIPE, EDOM, ERANGE, EDEADLK, ENAMETOOLONG,
   ENOLCK, ENOSYS, ENOTEMPTY]

/-! ## Guest RAM (MINIXCompat_Emulation.c)

Guest RAM is modelled as a total byte map `Nat → Nat` so that an access whose
footprint crosses the 16 MiB boundary is observable. The C functions each
begin with an `assert`; the assert's condition is embedded verbatim as a
`Bool`-valued predicate named after the function it guards. -/

/-- The condition asserted by `MINIXCompat_RAM_Read_8`:
`m68k_address < 0x01000000`. -/
def MINIXCompat_RAM_Read_8_assert (m68k_address : Nat) : Bool :=
  decide (m68k_address < 0x01000000)

/-- The condition asserted by `MINIXCompat_RAM_Read_16`:
`m68k_address < 0x01000000` (the second byte of the access is not checked). -/
def MINIXCompat_RAM_Read_16_assert (m68k_address : Nat) : Bool :=
  decide (m68k_address < 0x01000000)

/-- The condition asserted by `MINIXCompat_RAM_Read_32`:
`m68k_address < 0x01000000`. -/
def MINIXCompat_RAM_Read_32_assert (m68k_address : Nat) : Bool :=
  decide (m68k_address < 0x01000000)

/-- The condition asserted by `MINIXCompat_RAM_Write_16`:
`m68k_address < 0x01000000`. -/
def MINIXCompat_RAM_Write_16_assert (m68k_address : Nat) : Bool :=
  decide (m68k_address < 0x01000000)

/-- The condition asserted by `MINIXCompat_RAM_Write_32`:
`m68k_address < 0x01000000`. -/
def MINIXCompat_RAM_Write_32_assert (m68k_address : Nat) : Bool :=
  decide (m68k_address < 0x01000000)

/-- The conjunction asserted by `MINIXCompat_RAM_Copy_Block_From_Host` (and
`_To_Host`): `m68k_address < 0x01000000 && (size + m68k_address) <= 0x01000000`,
the sum computed in 32-bit arithmetic as in the C. -/
def MINIXCompat_RAM_Copy_Block_assert (m68k_address block_size : Nat) : Bool :=
  decide (m68k_address < 0x01000000) &&
    decide ((block_size + m68k_address) % 4294967296 ≤ 0x01000000)

/-- `MINIXCompat_RAM_Read_16`'s data path: `ntohs` of the two bytes at
`m68k_address` and `m68k_address + 1` (big-endian). -/
def MINIXCompat_RAM_Read_16 (ram : Nat → Nat) (m68k_address : Nat) : Nat :=
  256 * ram m68k_address + ram (m68k_address + 1)

/-- A RAM image that is zero everywhere. -/
def ramZero : Nat → Nat := fun _ => 0

/-- A RAM image that differs from `ramZero` only at address `0x01000000`, the
first byte past the end of guest RAM. -/
def ramMarked : Nat → Nat := fun a => if a = 0x01000000 then 1 else 0

/-! ## Stat-mode translation (MINIXCompat_Filesystem.c)

Host `struct stat` mode constants, modelled with their Linux/MINIX-compatible
octal values; the C source uses the symbolic names from `sys/stat.h`. -/

def S_IFMT : Nat := 0o170000
def S_IFSOCK : Nat := 0o140000
def S_IFLNK : Nat := 0o120000
def S_IFREG : Nat := 0o100000
def S_IFBLK : Nat := 0o060000
def S_IFDIR : Nat := 0o040000
def S_IFCHR : Nat := 0o020000
def S_IFIFO : Nat := 0o010000
def S_ISUID : Nat := 0o004000
def S_ISGID : Nat := 0o002000
def S_ISVTX : Nat := 0o001000
def S_IRUSR : Nat := 0o400
def S_IWUSR : Nat := 0o200
def S_IXUSR : Nat := 0o100
def S_IRGRP : Nat := 0o040
def S_IWGRP : Nat := 0o020
def S_IXGRP : Nat := 0o010
def S_IROTH : Nat := 0o004
def S_IWOTH : Nat := 0o002
def S_IXOTH : Nat := 0o001

/-! MINIX mode constants from the `minix_mode` enum in
`MINIXCompat_Filesystem.h`. -/

def minix_S_IFMT : Nat := 0o170000
def minix_S_IFREG : Nat := 0o100000
def minix_S_IFBLK : Nat := 0o060000
def minix_S_IFDIR : Nat := 0o040000
def minix_S_IFCHR : Nat := 0o020000
def minix_S_IFIFO : Nat := 0o010000
def minix_S_ISUID : Nat := 0o004000
def minix_S_ISGID : Nat := 0o002000
def minix_S_ISVTX : Nat := 0o001000
def minix_S_IRUSR : Nat := 0o400
def minix_S_IWUSR : Nat := 0o200
def minix_S_IXUSR : Nat := 0o100
def minix_S_IRGRP : Nat := 0o040
def minix_S_IWGRP : Nat := 0o020
def minix_S_IXGRP : Nat := 0o010
def minix_S_IROTH : Nat := 0o004
def minix_S_IWOTH : Nat := 0o002
def minix_S_IXOTH : Nat := 0o001

/-- `MINIXCompat_File_MINIXStatModeForHostStatMode`, translated line by line
from the source; note that the block-special test masks with `S_IFREG` (as the
source does) and that the type tests mask with the individual type constant
rather than with `S_IFMT`. -/
def MINIXCompat_File_MINIXStatModeForHostStatMode (host_mode : Nat) : Nat :=
  let m : Nat := 0
  let m := if (host_mode &&& S_IFREG) = S_IFREG then m ||| minix_S_IFREG else m
  let m := if (host_mode &&& S_IFREG) = S_IFBLK then m ||| minix_S_IFBLK else m
  let m := if (host_mode &&& S_IFDIR) = S_IFDIR then m ||| minix_S_IFDIR else m
  let m := if (host_mode &&& S_IFCHR) = S_IFCHR then m ||| minix_S_IFCHR else m
  let m := if (host_mode &&& S_IFIFO) = S_IFIFO then m ||| minix_S_IFIFO else m
  let m := if (host_mode &&& S_ISUID) ≠ 0 then m ||| minix_S_ISUID else m
  let m := if (host_mode &&& S_ISGID) ≠ 0 then m ||| minix_S_ISGID else m
  let m := if (host_mode &&& S_ISVTX) ≠ 0 then m ||| minix_S_ISVTX else m
  let m := if (host_mode &&& S_IRUSR) ≠ 0 then m ||| minix_S_IRUSR else m
  let m := if (host_mode &&& S_IWUSR) ≠ 0 then m ||| minix_S_IWUSR else m
  let m := if (host_mode &&& S_IXUSR) ≠ 0 then m ||| minix_S_IXUSR else m
  let m := if (host_mode &&& S_IRGRP) ≠ 0 then m ||| minix_S_IRGRP else m
  let m := if (host_mode &&& S_IWGRP) ≠ 0 then m ||| minix_S_IWGRP else m
  let m := if (host_mode &&& S_IXGRP) ≠ 0 then m ||| minix_S_IXGRP else m
  let m := if (host_mode &&& S_IROTH) ≠ 0 then m ||| minix_S_IROTH else m
  let m := if (host_mode &&& S_IWOTH) ≠ 0 then m ||| minix_S_IWOTH else m
  let m := if (host_mode &&& S_IXOTH) ≠ 0 then m ||| minix_S_IXOTH else m
  m

/-! ## File-descriptor table, directory reads, open (MINIXCompat_Filesystem.c) -/

/-- The `f_type` tag of a descriptor slot. -/
inductive f_type_t | f_unchecked | f_file | f_directory
deriving DecidableEq

/-- One slot of `MINIXCompat_fd_table` (`struct minix_fdmap`); the pre-cached
directory entries are modelled as the raw byte array the slot points at. -/
structure minix_fdmap where
  host_fd : Int
  minix_fd : Int
  f_type : f_type_t
  dir_entries : List Nat
  dir_count : Int
  dir_offset : Int
deriving DecidableEq

/-- `MINIXCompat_fd_count`: the table has 20 slots. -/
def MINIXCompat_fd_count : Int := 20

/-- `MINIXCompat_fd_IsInRange`. -/
def MINIXCompat_fd_IsInRange (minix_fd : Int) : Bool :=
  decide (0 ≤ minix_fd) && decide (minix_fd < MINIXCompat_fd_count)

/-- The slot contents produced by `MINIXCompat_fd_ClearDescriptorEntry`. -/
def clearedEntry : minix_fdmap :=
  { host_fd := -1, minix_fd := -1, f_type := .f_unchecked,
    dir_entries := [], dir_count := -1, dir_offset := -1 }

/-- `MINIXCompat_fd_ClearDescriptorEntry`: asserts the descriptor is in range
(`none` models the assertion firing), then resets the slot to the empty
state. -/
def MINIXCompat_fd_ClearDescriptorEntry (table : List minix_fdmap) (minix_fd : Int) :
    Option (List minix_fdmap) :=
  if MINIXCompat_fd_IsInRange minix_fd then
    some (table.set minix_fd.toNat clearedEntry)
  else none

/-- `MINIXCompat_fd_SetHostDescriptor`: asserts the descriptor is in range,
then records the host descriptor in the slot and marks it unchecked. -/
def MINIXCompat_fd_SetHostDescriptor (table : List minix_fdmap) (minix_fd host_fd : Int) :
    Option (List minix_fdmap) :=
  if MINIXCompat_fd_IsInRange minix_fd then
    some (table.set minix_fd.toNat
      { (table.getD minix_fd.toNat clearedEntry) with
        host_fd := host_fd, minix_fd := minix_fd, f_type := .f_unchecked })
  else none

/-- `MINIXCompat_fd_FindNextAvailable`: the lowest slot whose `host_fd` is
`-1`, or `-ENFILE` when the table is full. -/
def MINIXCompat_fd_FindNextAvailable (table : List minix_fdmap) : Int :=
  match table.findIdx? (fun e => e.host_fd == -1) with
  | some i => (i : Int)
  | none => - ENFILE

/-- A slot as `MINIXCompat_Filesystem_Initialize` wires up stdin/stdout/stderr. -/
def stdioEntry (fd : Int) : minix_fdmap :=
  { host_fd := fd, minix_fd := fd, f_type := .f_file,
    dir_entries := [], dir_count := -1, dir_offset := -1 }

/-- `MINIXCompat_fd_table` right after `MINIXCompat_Filesystem_Initialize`:
slots 0..2 wired to the host standard descriptors, the rest cleared. -/
def initialFdTable : List minix_fdmap :=
  [stdioEntry 0, stdioEntry 1, stdioEntry 2] ++ List.replicate 17 clearedEntry

/-- `MINIXCompat_Dir_Read`: serve `host_buf_size` bytes of the pre-cached
entry array from the cursor. On success the bytes are returned and the cursor
advances; otherwise the entry is unchanged and the result is
`MINIXCompat_Errors_MINIXErrorForHostError(EIO)` exactly as the source
computes it (without negation). Returns (updated slot, bytes copied, result). -/
def MINIXCompat_Dir_Read (entry : minix_fdmap) (host_buf_size : Int) :
    minix_fdmap × List Nat × Int :=
  let max_off_plus_one : Int := entry.dir_count * 16
  let cur_off : Int := entry.dir_offset
  if cur_off + host_buf_size ≤ max_off_plus_one then
    ({ entry with dir_offset := cur_off + host_buf_size },
     (entry.dir_entries.drop cur_off.toNat).take host_buf_size.toNat,
     host_buf_size)
  else
    (entry, [], MINIXCompat_Errors_MINIXErrorForHostError EIO)

/-- The descriptor-table logic of `MINIXCompat_File_Open`. The host
interactions are parameters: `host_fd` is what `open(2)` returned (a
descriptor, or `-1` with `host_errno` set) and `dircheck` is the result of
`MINIXCompat_Dir_CheckIfDirAndCache`. Mirroring the source, on a negative
`dircheck` the local `minix_fd` variable is overwritten with the error code
BEFORE `MINIXCompat_fd_ClearDescriptorEntry` is called on it. `none` models an
assertion firing. Returns the table and the value `MINIXCompat_File_Open`
returns. -/
def MINIXCompat_File_Open (table : List minix_fdmap) (host_fd host_errno dircheck : Int) :
    Option (List minix_fdmap × Int) :=
  let minix_fd := MINIXCompat_fd_FindNextAvailable table
  if 0 ≤ minix_fd then
    if 0 ≤ host_fd then
      match MINIXCompat_fd_SetHostDescriptor table minix_fd host_fd with
      | none => none
      | some table1 =>
        if dircheck < 0 then
          match MINIXCompat_fd_ClearDescriptorEntry table1 dircheck with
          | none => none
          | some table2 => some (table2, dircheck)
        else some (table1, minix_fd)
    else some (table, -(MINIXCompat_Errors_MINIXErrorForHostError host_errno))
  else some (table, -(MINIXCompat_Errors_MINIXErrorForHostError ENFILE))

/-- A directory slot with 32 cached entries (one MINIX block, 512 bytes) and
the cursor at the start, as `MINIXCompat_Dir_Precache` leaves it. The byte
array holds the four bytes 1,2,3,4 followed by zero padding. -/
def dirReadExample : minix_fdmap :=
  { host_fd := 4, minix_fd := 3, f_type := .f_directory,
    dir_entries := [1, 2, 3, 4] ++ List.replicate 508 0,
    dir_count := 32, dir_offset := 0 }

/-! ## Processes (MINIXCompat_Processes.c) -/

/-- One entry of `MINIXCompat_ProcessTable` (`struct minix_process_mapping`). -/
structure minix_process_mapping where
  host_pid : Int
  minix_pid : Int
deriving DecidableEq

/-- The zero process-table entry (`calloc` fill; a free slot has host pid 0). -/
def emptyProcessEntry : minix_process_mapping := { host_pid := 0, minix_pid := 0 }

/-- The mutable state of MINIXCompat_Processes.c: the table and the three
static pid variables. -/
structure ProcessesState where
  table : List minix_process_mapping
  minix_self_pid : Int
  minix_self_ppid : Int
  minix_next_pid : Int
deriving DecidableEq

/-- `MINIXCompat_Processes_Initialize` with the host's `getpid()`/`getppid()`
as parameters: a 32-entry table with slot 0 = (self, 7) and
slot 1 = (parent, 6), and the next pid to allocate set to 8. -/
def MINIXCompat_Processes_Initialize (host_self_pid host_self_ppid : Int) : ProcessesState :=
  let table0 := List.replicate 32 emptyProcessEntry
  let table1 := table0.set 0 { host_pid := host_self_pid, minix_pid := 7 }
  let table2 := table1.set 1 { host_pid := host_self_ppid, minix_pid := 6 }
  { table := table2, minix_self_pid := 0, minix_self_ppid := 0, minix_next_pid := 8 }

/-- `MINIXCompat_Processes_NextFreeTableEntry`: the first slot at index ≥ 2
with host pid 0, growing the table by half its size when none is free. -/
def MINIXCompat_Processes_NextFreeTableEntry (s : ProcessesState) : ProcessesState × Nat :=
  match (s.table.drop 2).findIdx? (fun e => e.host_pid == 0) with
  | some i => (s, i + 2)
  | none =>
    let old_size := s.table.length
    ({ s with table := s.table ++ List.replicate (old_size / 2) emptyProcessEntry },
     old_size)

/-- The outcome of the host `fork(2)` call, as a parameter to the embedding:
an error with a host errno, the parent's view (with the child's host pid), or
the child's view (with its own `getpid()`). -/
inductive HostForkResult
  | fail (host_errno : Int)
  | parent (child_host_pid : Int)
  | child (self_host_pid : Int)

/-- `MINIXCompat_Processes_fork`: reserve a table slot and the next MINIX pid,
then act on the host fork outcome exactly as the source does in its three
branches. Returns the new state and the value returned to the caller. -/
def MINIXCompat_Processes_fork (s : ProcessesState) (host_fork : HostForkResult) :
    ProcessesState × Int :=
  let s1p := MINIXCompat_Processes_NextFreeTableEntry s
  let s1 := s1p.1
  let new_process_entry := s1p.2
  let new_minix_process := s1.minix_next_pid
  let s2 := { s1 with minix_next_pid := s1.minix_next_pid + 1 }
  match host_fork with
  | .fail host_errno =>
    ({ s2 with minix_next_pid := s2.minix_next_pid - 1 },
     -(MINIXCompat_Errors_MINIXErrorForHostError host_errno))
  | .parent child_host_pid =>
    let new_entry : minix_process_mapping :=
      { host_pid := child_host_pid, minix_pid := new_minix_process }
    ({ s2 with table := s2.table.set new_process_entry new_entry },
     new_minix_process)
  | .child self_host_pid =>
    let e0 := s2.table.getD 0 emptyProcessEntry
    let e1 := s2.table.getD 1 emptyProcessEntry
    let t1 := s2.table.set new_process_entry e1
    let t2 := t1.set 1 e0
    let t3 := t2.set 0 ({ host_pid := self_host_pid, minix_pid := new_minix_process })
    ({ s2 with table := t3 }, 0)

/-- `MINIXCompat_Processes_GetProcessIDs`: on first use caches the MINIX
pid/ppid from table slots 0 and 1, then reports them. -/
def MINIXCompat_Processes_GetProcessIDs (s : ProcessesState) : ProcessesState × Int × Int :=
  let s1 :=
    if s.minix_self_pid = 0 ∧ s.minix_self_ppid = 0 then
      { s with minix_self_pid := (s.table.getD 0 emptyProcessEntry).minix_pid,
               minix_self_ppid := (s.table.getD 1 emptyProcessEntry).minix_pid }
    else s
  (s1, s1.minix_self_pid, s1.minix_self_ppid)

/-! ## Executable relocation (MINIXCompat_Executable.c) -/

/-- `MINIXCompat_Executable_Base`. -/
def MINIXCompat_Executable_Base : Nat := 0x00001000

/-- `MINIXCompat_Executable_Limit` (heap ceiling). -/
def MINIXCompat_Executable_Limit : Nat := 0x00fe0000

/-- 2^32, the modulus of the 32-bit arithmetic in the C source. -/
def UINT32_MOD : Nat := 4294967296

/-- Big-endian 32-bit read of the four bytes at `off` (`ntohl`). -/
def readBE32 (buf : Nat → Nat) (off : Nat) : Nat :=
  buf off * 16777216 + buf (off + 1) * 65536 + buf (off + 2) * 256 + buf (off + 3)

/-- Write `v` big-endian into the four bytes at `off` (`htonl`). -/
def writeBE32 (buf : Nat → Nat) (off v : Nat) : Nat → Nat :=
  fun a =>
    if a = off then v / 16777216 % 256
    else if a = off + 1 then v / 65536 % 256
    else if a = off + 2 then v / 256 % 256
    else if a = off + 3 then v % 256
    else buf a

/-- `MINIXExecutableRelocateLongAtOffset`: add `relocation_base` to the
big-endian long at `relocation_offset` (with 32-bit wraparound), writing it
back in big-endian order. -/
def MINIXExecutableRelocateLongAtOffset (buf : Nat → Nat)
    (relocation_base relocation_offset : Nat) : Nat → Nat :=
  writeBE32 buf relocation_offset
    ((readBE32 buf relocation_offset + relocation_base) % UINT32_MOD)

/-- The byte-stream loop of `MINIXExecutableRelocate`: `0x00` terminates,
`0x01` advances the running offset by 254 without relocating, any other even
byte advances the offset by its value and relocates at the new offset, any
other odd byte fails with `-ENOEXEC`; exhausting the stream models the failed
`fread`, `-EIO`. -/
def MINIXExecutableRelocateLoop (buf : Nat → Nat) (relocation_offset : Nat) :
    List Nat → Except Int (Nat → Nat)
  | [] => .error (- EIO)
  | b :: rest =>
    if b = 0 then .ok buf
    else if b = 1 then
      MINIXExecutableRelocateLoop buf ((relocation_offset + 254) % UINT32_MOD) rest
    else if b % 2 = 0 then
      MINIXExecutableRelocateLoop
        (MINIXExecutableRelocateLongAtOffset buf MINIXCompat_Executable_Base
          ((relocation_offset + b) % UINT32_MOD))
        ((relocation_offset + b) % UINT32_MOD) rest
    else .error (- ENOEXEC)

/-- `MINIXExecutableRelocate` on the bytes that follow the symbol table:
fewer than four bytes model the unreadable initial offset (no relocations,
success); otherwise the first four bytes are the big-endian initial offset,
zero meaning done, and a nonzero offset is relocated before the loop runs on
the remaining bytes. -/
def MINIXExecutableRelocate (buf : Nat → Nat) : List Nat → Except Int (Nat → Nat)
  | b0 :: b1 :: b2 :: b3 :: rest =>
    let relocation_offset := b0 * 16777216 + b1 * 65536 + b2 * 256 + b3
    if relocation_offset = 0 then .ok buf
    else
      MINIXExecutableRelocateLoop
        (MINIXExecutableRelocateLongAtOffset buf MINIXCompat_Executable_Base
          relocation_offset)
        relocation_offset rest
  | _ => .ok buf

/-- The pre-image of the spec's relocation scenario: big-endian `0x00001234`
at offset `0x20`, zero elsewhere. -/
def exampleImage : Nat → Nat :=
  fun a => if a = 0x22 then 0x12 else if a = 0x23 then 0x34 else 0

/-! ## brk (MINIXCompat_SysCalls.c) -/

/-- The reply message fields `MINIXCompat_SysCall_brk` fills in (`m_type` and
`m2_p1`). -/
structure BrkReply where
  m_type : Int
  m2_p1 : Nat
deriving DecidableEq

/-- `MINIXCompat_SysCall_brk`'s validation: the requested address succeeds
exactly when it is below `MINIXCompat_Executable_Limit` and at or above the
current break; on success the break becomes the requested address and the
reply carries it with a zero `m_type`, otherwise the break is unchanged and
the reply carries `-minix_ENOMEM` and the MINIX `((char *)-1)` sentinel.
Returns (new break, reply). -/
def MINIXCompat_SysCall_brk (minix_current_break minix_requested_addr : Nat) :
    Nat × BrkReply :=
  if minix_requested_addr < MINIXCompat_Executable_Limit ∧
      minix_current_break ≤ minix_requested_addr then
    (minix_requested_addr, { m_type := 0, m2_p1 := minix_requested_addr })
  else
    (minix_current_break, { m_type := - minix_ENOMEM, m2_p1 := 0xFFFFFFFF })

/-- The break after a sequence of brk requests, starting from break `b`
(initially 0 in the source). -/
def brkRun (requests : List Nat) (b : Nat) : Nat :=
  requests.foldl (fun br a => (MINIXCompat_SysCall_brk br a).1) b

/-! ## Execution state machine (MINIXCompat.c) -/

/-- `MINIXCompat_Execution_State`. -/
inductive MINIXCompat_Execution_State
  | Started | Ready | Running | Finished
deriving DecidableEq

/-- `MINIXCompat_Execution_ChangeState`: the assert admits exactly the five
transitions listed in the source; `none` models the assertion firing, `some`
is the state actually stored. -/
def MINIXCompat_Execution_ChangeState (current state : MINIXCompat_Execution_State) :
    Option MINIXCompat_Execution_State :=
  if (current = .Started ∧ state = .Ready)
      ∨ (current = .Ready ∧ state = .Running)
      ∨ (current = .Running ∧ state = .Ready)
      ∨ (current = .Running ∧ state = .Finished)
      ∨ (current = .Finished ∧ state = .Finished) then
    some state
  else none

/-- The state changes the run loop in `main` and its callees perform: startup
exec moves Started to Ready (`MINIXCompat_Processes_ExecuteWithHostParams`),
the Ready arm moves to Running after the CPU reset, a guest `exece` moves
Running back to Ready (`MINIXCompat_Processes_ExecuteWithStackBlock`), a guest
`exit` moves Running to Finished (`MINIXCompat_exit`), and a repeated `exit`
moves Finished to Finished. -/
inductive MainLoopStep : MINIXCompat_Execution_State → MINIXCompat_Execution_State → Prop
  | startup : MainLoopStep .Started .Ready
  | begin_run : MainLoopStep .Ready .Running
  | guest_exec : MainLoopStep .Running .Ready
  | guest_exit : MainLoopStep .Running .Finished
  | repeated_exit : MainLoopStep .Finished .Finished

/-! ## Working-directory initialization (MINIXCompat_Filesystem.c) -/

/-- `MINIXCompat_PathContains`: with `path_len = strlen(path)` and
`subpath_len = strlen(subpath)`, return
`strncmp(path, subpath, path_len) == 0` when `path_len <= subpath_len` and
false otherwise. Paths are modelled as their character lists. -/
def MINIXCompat_PathContains (path subpath : List Char) : Bool :=
  if path.length ≤ subpath.length then path == subpath.take path.length
  else false

/-- The `MINIXCOMPAT_PWD`-unset branch of `MINIXCompat_CWD_Initialize`: when
the containment check accepts the host cwd, the suffix of the cwd after
`MINIXCOMPAT_DIR_len` becomes the working directory, else `/`. -/
def MINIXCompat_CWD_Initialize (minixcompat_dir cwd : List Char) : List Char :=
  if MINIXCompat_PathContains minixcompat_dir cwd then cwd.drop minixcompat_dir.length
  else ['/']

/-- The MINIX root of the C10 scenario, `/opt/minix`. -/
def minixRootPath : List Char := "/opt/minix".toList

/-- A host working directory of which the MINIX root is a string prefix but
not a path ancestor, `/opt/minixtest`. -/
def hostCwdPath : List Char := "/opt/minixtest".toList

/-! ## Theorems -/

/-- Reading back the big-endian long written by `writeBE32` recovers the
written 32-bit value. -/
theorem readBE32_writeBE32 (buf : Nat → Nat) (off v : Nat) (h : v < UINT32_MOD) :
    readBE32 (writeBE32 buf off v) off = v := by
  have h1 : off + 1 ≠ off := by omega
  have h2 : off + 2 ≠ off := by omega
  have h21 : off + 2 ≠ off + 1 := by omega
  have h3 : off + 3 ≠ off := by omega
  have h31 : off + 3 ≠ off + 1 := by omega
  have h32 : off + 3 ≠ off + 2 := by omega
  simp [readBE32, writeBE32, h1, h2, h21, h3, h31, h32]
  unfold UINT32_MOD at h
  omega

/-- Each brk call leaves the recorded break no smaller than before. -/
theorem brk_step_monotone (b a : Nat) : b ≤ (MINIXCompat_SysCall_brk b a).1 := by
  unfold MINIXCompat_SysCall_brk
  split_ifs with h
  · exact h.2
  · exact le_refl b

/-- C1: the 16-bit RAM accessors assert only `addr < 0x01000000`, so the
assertion accepts the start address `0x00FFFFFF` although the access footprint
`addr + 2` exceeds `0x01000000`, and the read actually performed depends on
the byte at `0x01000000`, one past the end of guest RAM; only the block-copy
assertion enforces `addr + size ≤ 0x01000000` and rejects that same
footprint. -/
theorem ram_read16_assert_admits_out_of_bounds :
    MINIXCompat_RAM_Read_16_assert 0x00FFFFFF = true
      ∧ ¬ (0x00FFFFFF + 2 ≤ 0x01000000)
      ∧ MINIXCompat_RAM_Read_16 ramZero 0x00FFFFFF
          ≠ MINIXCompat_RAM_Read_16 ramMarked 0x00FFFFFF
      ∧ MINIXCompat_RAM_Copy_Block_assert 0x00FFFFFF 2 = false :=
  ⟨by decide, by decide, by decide, by decide⟩

/-- C2: at host mode `S_IFLNK` (a symbolic link, whose `S_IFMT` type field is
neither the regular-file nor the character-device type) the source's stat-mode
translation nevertheless sets both the guest regular-file and character-device
type bits, because each type test masks with a single type constant instead of
comparing the whole type field; and the block-special alternative, which masks
with `S_IFREG` but compares against `S_IFBLK`, can never fire for any host
mode at all. -/
theorem stat_mode_translation_mismatch :
    ((MINIXCompat_File_MINIXStatModeForHostStatMode S_IFLNK) &&& minix_S_IFREG
        = minix_S_IFREG)
      ∧ ((MINIXCompat_File_MINIXStatModeForHostStatMode S_IFLNK) &&& minix_S_IFCHR
        = minix_S_IFCHR)
      ∧ (S_IFLNK &&& S_IFMT ≠ S_IFREG)
      ∧ (S_IFLNK &&& S_IFMT ≠ S_IFCHR)
      ∧ (∀ host_mode : Nat, (host_mode &&& S_IFREG) ≠ S_IFBLK) := by
  refine ⟨by decide, by decide, by decide, by decide, ?_⟩
  intro host_mode
  have h : host_mode &&& S_IFREG = (host_mode.testBit 15).toNat * 2 ^ 15 := by
    have h2p := Nat.and_two_pow host_mode 15
    simpa [S_IFREG] using h2p
  rw [h]
  cases hb : host_mode.testBit 15 <;> simp [hb, S_IFBLK]

/-- C3: `MINIXCompat_Dir_Read` on a directory slot with 512 cached bytes and
the cursor at 0: a 16-byte read returns exactly 16 and advances the cursor to
16; an oversized read leaves the cursor unchanged but reports the failure as
`MINIXCompat_Errors_MINIXErrorForHostError(EIO)` without the negation every
other failure path applies — the result is the positive value `5`, not a
negative MINIX errno. -/
theorem dir_read_error_not_negated :
    (MINIXCompat_Dir_Read dirReadExample 16).2.2 = 16
      ∧ (MINIXCompat_Dir_Read dirReadExample 16).1.dir_offset = 16
      ∧ (MINIXCompat_Dir_Read dirReadExample 16).2.1 = [1, 2, 3, 4] ++ List.replicate 12 0
      ∧ (MINIXCompat_Dir_Read dirReadExample 1024).2.2
          = MINIXCompat_Errors_MINIXErrorForHostError EIO
      ∧ (MINIXCompat_Dir_Read dirReadExample 1024).2.2 = 5
      ∧ ¬ ((MINIXCompat_Dir_Read dirReadExample 1024).2.2 < 0)
      ∧ (MINIXCompat_Dir_Read dirReadExample 1024).1 = dirReadExample := by
  set_option maxRecDepth 8192 in
  refine ⟨by decide, by decide, by decide, by decide, by decide, by decide, by decide⟩

/-- C4: opening `/etc/motd`-style path on the freshly initialized table
allocates the lowest free slot, 3; but when the host open succeeds (host fd 5)
and the directory check/pre-cache step then fails (result `-5`), the source
overwrites its `minix_fd` variable with the error code before clearing, so the
clear is attempted at slot `-5`: the in-range assertion fires (`none`) and the
allocated slot is never returned to the empty state. -/
theorem file_open_dir_failure_clears_wrong_slot :
    MINIXCompat_fd_FindNextAvailable initialFdTable = 3
      ∧ MINIXCompat_fd_ClearDescriptorEntry initialFdTable (-5) = none
      ∧ MINIXCompat_File_Open initialFdTable 5 0 (-5) = none := by
  refine ⟨by decide, by decide, by decide⟩

/-- C5 counterexample: in the initial process (initialized with arbitrary
concrete host pids), the first `fork` returns `8` to the parent, not `7` as
the claim states. -/
theorem first_fork_returns_eight_not_seven :
    (MINIXCompat_Processes_fork (MINIXCompat_Processes_Initialize 1000 999)
        (HostForkResult.parent 1001)).2 = 8
      ∧ (8 : Int) ≠ 7 := by
  refine ⟨?_, by decide⟩
  decide

/-- C5 amended: PID 7 is allocated to the initial process itself at
initialization and `minix_next_pid` starts at 8, so the first `fork` in the
initial process returns guest PID `8` to the parent; in the child it returns
`0`, `getpid()` in the child returns `8`, and `getppid()` in the child returns
`7`, the initial process's own PID (whose ppid is the pseudo-parent `6`). -/
theorem first_fork_pid_facts (host_self host_parent host_child : Int) :
    (MINIXCompat_Processes_fork (MINIXCompat_Processes_Initialize host_self host_parent)
        (HostForkResult.parent host_child)).2 = 8
      ∧ (MINIXCompat_Processes_fork (MINIXCompat_Processes_Initialize host_self host_parent)
        (HostForkResult.child host_child)).2 = 0
      ∧ (MINIXCompat_Processes_GetProcessIDs
          (MINIXCompat_Processes_fork (MINIXCompat_Processes_Initialize host_self host_parent)
            (HostForkResult.child host_child)).1).2 = (8, 7)
      ∧ (MINIXCompat_Processes_GetProcessIDs
          (MINIXCompat_Processes_Initialize host_self host_parent)).2 = (7, 6) :=
  ⟨rfl, rfl, rfl, rfl⟩

/-- C6: the relocation stream is applied as specified: an unreadable or zero
initial offset means no relocations and success; in the byte loop `0x00`
terminates, `0x01` advances the running offset by 254 without relocating, any
other even byte advances the offset by its value and relocates at the new
offset, and any other odd byte fails as malformed (`-ENOEXEC`); the patch adds
the executable base `0x1000` to the big-endian long at the offset, preserving
big-endian order, and leaves all other bytes unchanged; and on the spec's
example image the stream `00 00 00 20 00` turns the bytes at `0x20` from
`00 00 12 34` into `00 00 22 34`. -/
theorem executable_relocation_rules :
    (∀ buf : Nat → Nat, MINIXExecutableRelocate buf [] = .ok buf)
      ∧ (∀ (buf : Nat → Nat) (rest : List Nat),
        MINIXExecutableRelocate buf (0 :: 0 :: 0 :: 0 :: rest) = .ok buf)
      ∧ (∀ (buf : Nat → Nat) (off : Nat) (rest : List Nat),
        MINIXExecutableRelocateLoop buf off (0 :: rest) = .ok buf)
      ∧ (∀ (buf : Nat → Nat) (off : Nat) (rest : List Nat),
        MINIXExecutableRelocateLoop buf off (1 :: rest)
          = MINIXExecutableRelocateLoop buf ((off + 254) % UINT32_MOD) rest)
      ∧ (∀ (buf : Nat → Nat) (off b : Nat) (rest : List Nat),
        b ≠ 0 → b ≠ 1 → b % 2 = 0 →
          MINIXExecutableRelocateLoop buf off (b :: rest)
            = MINIXExecutableRelocateLoop
                (MINIXExecutableRelocateLongAtOffset buf MINIXCompat_Executable_Base
                  ((off + b) % UINT32_MOD))
                ((off + b) % UINT32_MOD) rest)
      ∧ (∀ (buf : Nat → Nat) (off b : Nat) (rest : List Nat),
        b % 2 = 1 → b ≠ 1 →
          MINIXExecutableRelocateLoop buf off (b :: rest) = .error (- ENOEXEC))
      ∧ (∀ (buf : Nat → Nat) (off : Nat),
        readBE32 (MINIXExecutableRelocateLongAtOffset buf MINIXCompat_Executable_Base off) off
          = (readBE32 buf off + MINIXCompat_Executable_Base) % UINT32_MOD)
      ∧ (∀ (buf : Nat → Nat) (base off a : Nat),
        a ≠ off → a ≠ off + 1 → a ≠ off + 2 → a ≠ off + 3 →
          MINIXExecutableRelocateLongAtOffset buf base off a = buf a)
      ∧ ((MINIXExecutableRelocate exampleImage [0x00, 0x00, 0x00, 0x20, 0x00]).map
          (fun f => (f 0x20, f 0x21, f 0x22, f 0x23)) = .ok (0x00, 0x00, 0x22, 0x34)) := by
  refine ⟨fun buf => rfl, fun buf rest => rfl, fun buf off rest => rfl,
    fun buf off rest => rfl, ?_, ?_, ?_, ?_, rfl⟩
  · intro buf off b rest h0 h1 h2
    simp only [MINIXExecutableRelocateLoop, if_neg h0, if_neg h1, if_pos h2]
  · intro buf off b rest hodd h1
    have h0 : b ≠ 0 := by omega
    have h2 : ¬ (b % 2 = 0) := by omega
    simp only [MINIXExecutableRelocateLoop, if_neg h0, if_neg h1, if_neg h2]
  · intro buf off
    unfold MINIXExecutableRelocateLongAtOffset
    exact readBE32_writeBE32 buf off _ (Nat.mod_lt _ (by decide))
  · intro buf base off a ha0 ha1 ha2 ha3
    simp only [MINIXExecutableRelocateLongAtOffset, writeBE32, if_neg ha0, if_neg ha1,
      if_neg ha2, if_neg ha3]

/-- Witness for the relocation rules: the even byte `4` advances the offset
from `0x20` to `0x24` and relocates there, and the odd byte `3` is rejected as
malformed. -/
theorem executable_relocation_rules_witness :
    MINIXExecutableRelocateLoop exampleImage 0x20 [4, 0]
        = MINIXExecutableRelocateLoop
            (MINIXExecutableRelocateLongAtOffset exampleImage MINIXCompat_Executable_Base
              ((0x20 + 4) % UINT32_MOD))
            ((0x20 + 4) % UINT32_MOD) [0]
      ∧ MINIXExecutableRelocateLoop exampleImage 0x20 [3] = .error (- ENOEXEC) :=
  ⟨executable_relocation_rules.2.2.2.2.1 exampleImage 0x20 4 [0]
      (by decide) (by decide) (by decide),
   executable_relocation_rules.2.2.2.2.2.1 exampleImage 0x20 3 []
      (by decide) (by decide)⟩

/-- C7: a brk request succeeds exactly when the requested address is below the
heap ceiling `0x00FE0000` and at or above the current break, recording the new
break and replying with the same address and a zero error; otherwise the reply
carries `-minix_ENOMEM` and the sentinel `0xFFFFFFFF` and the break is
unchanged. The recorded break is monotonically non-decreasing across every
sequence of brk calls, and in the sequence `brk(0x2000)`, `brk(0x3000)`,
`brk(0x2500)` the first two succeed, the third fails, and the break remains
`0x3000`. -/
theorem brk_validation_and_monotonicity :
    (∀ b a : Nat, a < MINIXCompat_Executable_Limit → b ≤ a →
        MINIXCompat_SysCall_brk b a = (a, { m_type := 0, m2_p1 := a }))
      ∧ (∀ b a : Nat, ¬ (a < MINIXCompat_Executable_Limit ∧ b ≤ a) →
        MINIXCompat_SysCall_brk b a
          = (b, { m_type := - minix_ENOMEM, m2_p1 := 0xFFFFFFFF }))
      ∧ (∀ b a : Nat, b ≤ (MINIXCompat_SysCall_brk b a).1)
      ∧ (∀ (requests : List Nat) (b : Nat), b ≤ brkRun requests b)
      ∧ brkRun [0x2000, 0x3000, 0x2500] 0 = 0x3000
      ∧ (MINIXCompat_SysCall_brk 0 0x2000).2 = { m_type := 0, m2_p1 := 0x2000 }
      ∧ (MINIXCompat_SysCall_brk 0x2000 0x3000).2 = { m_type := 0, m2_p1 := 0x3000 }
      ∧ (MINIXCompat_SysCall_brk 0x3000 0x2500).2
          = { m_type := - minix_ENOMEM, m2_p1 := 0xFFFFFFFF } := by
  refine ⟨?_, ?_, brk_step_monotone, ?_, by decide, by decide, by decide, by decide⟩
  · intro b a h1 h2
    simp only [MINIXCompat_SysCall_brk]
    rw [if_pos ⟨h1, h2⟩]
  · intro b a h
    simp only [MINIXCompat_SysCall_brk]
    rw [if_neg h]
  · intro requests
    induction requests with
    | nil => intro b; exact le_refl b
    | cons a l ih =>
      intro b
      exact le_trans (brk_step_monotone b a) (ih (MINIXCompat_SysCall_brk b a).1)

/-- Witness for the brk theorem at the spec's concrete sequence: `brk(0x2000)`
from break 0 succeeds, and `brk(0x2500)` at break `0x3000` fails with
`-minix_ENOMEM` and the sentinel, leaving the break at `0x3000`. -/
theorem brk_validation_and_monotonicity_witness :
    MINIXCompat_SysCall_brk 0 0x2000 = (0x2000, { m_type := 0, m2_p1 := 0x2000 })
      ∧ MINIXCompat_SysCall_brk 0x3000 0x2500
        = (0x3000, { m_type := - minix_ENOMEM, m2_p1 := 0xFFFFFFFF }) :=
  ⟨brk_validation_and_monotonicity.1 0 0x2000 (by decide) (by decide),
   brk_validation_and_monotonicity.2.1 0x3000 0x2500 (by decide)⟩

/-- C8: `MINIXCompat_Execution_ChangeState` succeeds exactly on the five
listed transitions (Started→Ready, Ready→Running, Running→Ready,
Running→Finished, Finished→Finished) and its assertion fires on every other
source/target pair; every state change the run loop performs is one of the
listed transitions, so every state reachable from Started is reached only
through them. -/
theorem execution_state_machine :
    (∀ s t : MINIXCompat_Execution_State,
        (MINIXCompat_Execution_ChangeState s t).isSome = true ↔
          ((s = .Started ∧ t = .Ready) ∨ (s = .Ready ∧ t = .Running)
            ∨ (s = .Running ∧ t = .Ready) ∨ (s = .Running ∧ t = .Finished)
            ∨ (s = .Finished ∧ t = .Finished)))
      ∧ (∀ s t : MINIXCompat_Execution_State, MainLoopStep s t →
        MINIXCompat_Execution_ChangeState s t = some t)
      ∧ (∀ s : MINIXCompat_Execution_State,
        Relation.ReflTransGen MainLoopStep MINIXCompat_Execution_State.Started s →
          ∀ t : MINIXCompat_Execution_State, MainLoopStep s t →
            MINIXCompat_Execution_ChangeState s t = some t) := by
  have hstep : ∀ s t : MINIXCompat_Execution_State, MainLoopStep s t →
      MINIXCompat_Execution_ChangeState s t = some t := by
    intro s t h
    cases h <;> decide
  refine ⟨?_, hstep, fun s _ t h => hstep s t h⟩
  intro s t
  cases s <;> cases t <;> decide

/-- Witness for the execution-state theorem: the startup transition of the run
loop, taken from the reachable initial state, passes the assertion. -/
theorem execution_state_machine_witness :
    MINIXCompat_Execution_ChangeState MINIXCompat_Execution_State.Started
        MINIXCompat_Execution_State.Ready = some MINIXCompat_Execution_State.Ready :=
  execution_state_machine.2.2 MINIXCompat_Execution_State.Started
    Relation.ReflTransGen.refl MINIXCompat_Execution_State.Ready MainLoopStep.startup

/-- C9 counterexample: the translation table maps 39 distinct host errno
constants (each to a non-catch-all MINIX errno), not 38 as the claim
states. -/
theorem errno_mapped_set_has_39_entries :
    mappedHostErrors.length = 39 ∧ mappedHostErrors.Nodup
      ∧ mappedHostErrors.all
          (fun e => decide (MINIXCompat_Errors_MINIXErrorForHostError e ≠ minix_ERROR)) = true
      ∧ (39 : Nat) ≠ 38 := by
  refine ⟨by decide, by decide, by decide, by decide⟩

/-- C9 amended: for every host errno in the mapped set — the 39 distinct host
errno constants with a MINIX counterpart — translating to the MINIX errno and
back yields the original host errno; every unmapped host errno translates to
the catch-all MINIX error code 99. -/
theorem errno_roundtrip :
    (∀ e : Int, e ∈ mappedHostErrors →
        MINIXCompat_Errors_HostErrorForMINIXError
          (MINIXCompat_Errors_MINIXErrorForHostError e) = e)
      ∧ (∀ e : Int, e ∉ mappedHostErrors →
        MINIXCompat_Errors_MINIXErrorForHostError e = minix_ERROR) := by
  constructor
  · intro e he
    have hall : mappedHostErrors.all
        (fun x => decide (MINIXCompat_Errors_HostErrorForMINIXError
          (MINIXCompat_Errors_MINIXErrorForHostError x) = x)) = true := by decide
    exact of_decide_eq_true (List.all_eq_true.mp hall e he)
  · intro e he
    simp only [mappedHostErrors, List.mem_cons, List.mem_singleton] at he
    push_neg at he
    obtain ⟨h1, h2, h3, h4, h5, h6, h7, h8, h9, h10, h11, h12, h13, h14, h15, h16,
      h17, h18, h19, h20, h21, h22, h23, h24, h25, h26, h27, h28, h29, h30, h31,
      h32, h33, h34, h35, h36, h37, h38, h39, -⟩ := he
    unfold MINIXCompat_Errors_MINIXErrorForHostError
    rw [if_neg h1, if_neg h2, if_neg h3, if_neg h4, if_neg h5, if_neg h6, if_neg h7,
      if_neg h8, if_neg h9, if_neg h10, if_neg h11, if_neg h12, if_neg h13, if_neg h14,
      if_neg h15, if_neg h16, if_neg h17, if_neg h18, if_neg h19, if_neg h20,
      if_neg h21, if_neg h22, if_neg h23, if_neg h24, if_neg h25, if_neg h26,
      if_neg h27, if_neg h28, if_neg h29, if_neg h30, if_neg h31, if_neg h32,
      if_neg h33, if_neg h34, if_neg h35, if_neg h36, if_neg h37, if_neg h38,
      if_neg h39]

/-- Witness for the errno round-trip: host errno 5 (I/O error) survives the
round trip, and the unmapped host errno 1000 maps to the catch-all 99. -/
theorem errno_roundtrip_witness :
    MINIXCompat_Errors_HostErrorForMINIXError
        (MINIXCompat_Errors_MINIXErrorForHostError 5) = 5
      ∧ MINIXCompat_Errors_MINIXErrorForHostError 1000 = minix_ERROR :=
  ⟨errno_roundtrip.1 5 (by decide), errno_roundtrip.2 1000 (by decide)⟩

/-- C10: `MINIXCompat_PathContains` returns true exactly when the first path
is a string prefix of the second (equal over the first path's length, which
must not exceed the second's); consequently the root `/opt/minix` "contains"
the host cwd `/opt/minixtest`, and working-directory initialization makes the
suffix `test` the initial guest working directory. -/
theorem path_contains_is_string_prefix_only :
    (∀ path subpath : List Char,
        MINIXCompat_PathContains path subpath = true ↔ path <+: subpath)
      ∧ MINIXCompat_PathContains minixRootPath hostCwdPath = true
      ∧ MINIXCompat_CWD_Initialize minixRootPath hostCwdPath = "test".toList := by
  refine ⟨?_, by decide, by decide⟩
  intro path subpath
  unfold MINIXCompat_PathContains
  split_ifs with h
  · rw [beq_iff_eq, List.prefix_iff_eq_take]
  · simp only [Bool.false_eq_true, false_iff]
    intro hp
    exact h hp.length_le

end MINIXCompat


